import Mathlib

/-!
Shallow embedding of the perception-and-decision core of
`src/scripts/mario_expert.py` (class `MarioExpert`): the feature
extractors over the 16 × 20 game-area grid, the fixed-priority cascade in
`choose_action`, and the oscillation guard.

Grid accesses are modelled with Python/numpy indexing semantics: a
negative index `i` with `-n ≤ i < 0` wraps around to `n + i`, and any
index outside `[-n, n)` raises `IndexError`, modelled here as `none`
propagating through the computation (an extractor returning `none` means
the Python call raises instead of returning).
-/

namespace MarioExpert

/-- Sprite code `Sprites.AIR`. -/
def AIR : Nat := 0

/-- Sprite code `Sprites.MARIO`. -/
def MARIO : Nat := 1

/-- Sprite code `Sprites.BLOCK`. -/
def BLOCK : Nat := 10

/-- Sprite code `Sprites.MOVING_PLATFORM`. -/
def MOVING_PLATFORM : Nat := 11

/-- Sprite code `Sprites.BRICK`. -/
def BRICK : Nat := 12

/-- Sprite code `Sprites.POWERUP_BLOCK`. -/
def POWERUP_BLOCK : Nat := 13

/-- Sprite code `Sprites.PIPE`. -/
def PIPE : Nat := 14

/-- Sprite code `Sprites.GOOMBA`. -/
def GOOMBA : Nat := 15

/-- Sprite code `Sprites.KOOPA`. -/
def KOOPA : Nat := 16

/-- Sprite code `Sprites.FLY`. -/
def FLY : Nat := 18

/-- Sprite code `Sprites.BEE`. -/
def BEE : Nat := 19

/-- Sprite code `Sprites.SHELL`. -/
def SHELL : Nat := 25

/-- The logical actions of the `Actions` IntEnum. -/
inductive Actions
  | LEFT
  | RIGHT
  | UP
  | JUMP
  | SPRINT
  deriving DecidableEq

/-- Number of rows of the game area delivered by the environment
(`game_area.shape[0]`); the code hard-codes the bottom row as index 15. -/
def ROWS : Nat := 16

/-- Number of columns of the game area delivered by the environment
(`game_area.shape[1]`). -/
def COLS : Nat := 20

/-- A game-area snapshot: sprite code at (row, column).  Only indices
resolved through `npGet` are ever consulted, so values outside
`[0, ROWS) × [0, COLS)` are irrelevant. -/
def Grid : Type := Nat → Nat → Nat

/-- Resolution of one numpy index against an axis of length `n`:
in-range indices are kept, negative indices down to `-n` wrap around,
anything else raises `IndexError` (`none`). -/
def npIdx (n : Nat) (i : Int) : Option Nat :=
  if 0 ≤ i ∧ i < (n : Int) then some i.toNat
  else if -(n : Int) ≤ i ∧ i < 0 then some (i + n).toNat
  else none

/-- `game_area[i][j]` with numpy indexing semantics. -/
def npGet (g : Grid) (i j : Int) : Option Nat :=
  match npIdx ROWS i, npIdx COLS j with
  | some a, some b => some (g a b)
  | _, _ => none

/-- Cell-access abstraction threaded through the extractors; instantiated
with `npGet g` for a concrete grid. -/
def Acc : Type := Int → Int → Option Nat

/-- One Python for-loop with an early `return`: `f` applied to each list
element in order; `none` models an uncaught exception aborting the loop,
`some (some b)` an early `return b`, `some none` falling through to the
next iteration (and `some none` overall means the loop completed without
returning). -/
def pyFirst {α β : Type} (f : α → Option (Option β)) : List α → Option (Option β)
  | [] => some none
  | a :: l =>
    match f a with
    | none => none
    | some (some b) => some (some b)
    | some none => pyFirst f l

/-- Coordinate sequence traversed by two nested Python for-loops: outer
elements in order, each paired with its full inner sequence. -/
def prodList {α β : Type} (f : α → List β) : List α → List (α × β)
  | [] => []
  | a :: l => (f a).map (fun b => (a, b)) ++ prodList f l

/-- First non-`none` value of `h` along a list (pure first-match scan,
used for the loop-free restatements of the extractors). -/
def firstSome {α β : Type} (h : α → Option β) : List α → Option β
  | [] => none
  | a :: l =>
    match h a with
    | some b => some b
    | none => firstSome h l

/-- `get_mario_pos`: the first cell in row-major order holding the MARIO
code, shifted by (+1, +1) (bottom-right corner of the 2 × 2 sprite);
`(0, 0)` when no such cell exists. -/
def get_mario_pos (g : Grid) : Nat × Nat :=
  (((List.range ROWS).findSome? fun x =>
    (List.range COLS).findSome? fun y =>
      if g x y = MARIO then some (x + 1, y + 1) else none).getD (0, 0))

/-- `get_is_airborne`: true iff the cell directly beneath the anchor is
air. -/
def get_is_airborne (acc : Acc) (mx my : Nat) : Option Bool :=
  (acc ((mx : Int) + 1) (my : Int)).map fun v => v == AIR

/-- Loop body of `get_enemy_info` at `(xoffset, yoffset) = c`: return the
triple when the visited cell has code ≥ GOOMBA, otherwise continue. -/
def enemy_check (acc : Acc) (mx my : Nat) (c : Nat × Nat) :
    Option (Option (Int × Int × Int)) :=
  (acc ((mx : Int) - (c.1 : Int)) ((my : Int) + (c.2 : Int))).map fun v =>
    if GOOMBA ≤ v then some ((c.1 : Int), (c.2 : Int), (v : Int)) else none

/-- `get_enemy_info`: scan rows `mx, mx - 1, …, 1` (outer loop
`for xoffset in range(mx)`), and within each row columns
`my, …, COLS - 1`, for the first cell with code ≥ GOOMBA; returns
`(xoffset, yoffset, code)`, or the sentinel `(100, 100, 100)`. -/
def get_enemy_info (acc : Acc) (mx my : Nat) : Option (Int × Int × Int) :=
  match pyFirst (enemy_check acc mx my)
    (prodList (fun _ => List.range (COLS - my)) (List.range mx)) with
  | none => none
  | some (some r) => some r
  | some none => some (100, 100, 100)

/-- The `while self.game_area[x][my + y] != Sprites.AIR.value: x -= 1`
loop of `get_obstacle_info`, walking upward from row `x`.  The fuel
argument only bounds the recursion: starting at `x = mx ≤ 16`, `npGet`
raises (`none`) once `x` reaches `-17`, after at most 34 steps, so fuel
40 is never exhausted on the instantiations used here. -/
def obstacleWalk (acc : Acc) (col : Int) : Nat → Int → Option Int
  | 0, _ => none
  | fuel + 1, x =>
    match acc x col with
    | none => none
    | some v => if v = AIR then some x else obstacleWalk acc col fuel (x - 1)

/-- Loop body of `get_obstacle_info` at column offset `y`: when the cell
on the anchor's row is BRICK/PIPE/BLOCK, walk upward and return
`(y, mx - x + 1)`; otherwise continue. -/
def obstacle_check (acc : Acc) (mx my : Nat) (y : Nat) :
    Option (Option (Int × Int)) :=
  (acc (mx : Int) ((my + y : Nat) : Int)).bind fun v =>
    if v = BRICK ∨ v = PIPE ∨ v = BLOCK then
      (obstacleWalk acc ((my + y : Nat) : Int) 40 (mx : Int)).map fun x =>
        some ((y : Int), (mx : Int) - x + 1)
    else some none

/-- `get_obstacle_info`: scan columns `my, …, my + 5` on the anchor's row
for the first BRICK/PIPE/BLOCK cell, then walk upward until an air cell;
returns `(column offset, mx - x + 1)`, or the sentinel `(100, 100)`. -/
def get_obstacle_info (acc : Acc) (mx my : Nat) : Option (Int × Int) :=
  match pyFirst (obstacle_check acc mx my) (List.range 6) with
  | none => none
  | some (some r) => some r
  | some none => some (100, 100)

/-- Loop body of `get_platform_above` at `(y, x) = c`: return
`(mx - x, y)` when the visited cell is an exposed landing edge
(BRICK/BLOCK with air at `[x - 1][my + y]` and `[x][my + y - 1]`),
otherwise continue. -/
def platform_check (acc : Acc) (mx my : Nat) (c : Nat × Nat) :
    Option (Option (Int × Int)) :=
  (acc (c.2 : Int) ((my + c.1 : Nat) : Int)).bind fun v =>
    if v = BRICK ∨ v = BLOCK then
      (acc ((c.2 : Int) - 1) ((my + c.1 : Nat) : Int)).bind fun v2 =>
        if v2 = AIR then
          (acc (c.2 : Int) (((my + c.1 : Nat) : Int) - 1)).bind fun v3 =>
            if v3 = AIR then some (some ((mx : Int) - (c.2 : Int), (c.1 : Int)))
            else some none
        else some none
    else some none

/-- `get_platform_above`: for `y` in `1, …, 6` and `x` in
`0, …, mx - 2`, the first exposed landing edge found by `platform_check`;
returns `(mx - x, y)`, or the sentinel `(100, 100)`. -/
def get_platform_above (acc : Acc) (mx my : Nat) : Option (Int × Int) :=
  match pyFirst (platform_check acc mx my)
    (prodList (fun _ => List.range (mx - 1)) ((List.range 6).map (fun y => y + 1))) with
  | none => none
  | some (some r) => some r
  | some none => some (100, 100)

/-- Inner loop body of `get_pit_info` at `(a, boffset) = c`: return
`(yoffset, mx - a, b - my)` when the visited cell's code lies in
`[BLOCK, PIPE]`, otherwise continue. -/
def pit_far_check (acc : Acc) (mx my yoffset : Nat) (c : Nat × Nat) :
    Option (Option (Int × Int × Int)) :=
  (acc ((c.1 : Nat) : Int) ((my + yoffset + c.2 : Nat) : Int)).map fun v3 =>
    if BLOCK ≤ v3 ∧ v3 ≤ PIPE then
      some ((yoffset : Int), (mx : Int) - (c.1 : Int),
        ((my + yoffset + c.2 : Nat) : Int) - (my : Int))
    else none

/-- Outer loop body of `get_pit_info` at column offset `yoffset`: when
both the cell one row beneath the anchor and the bottom-row cell (row
index 15) at that column are air, run the inner far-edge scan; a found
far edge is returned, otherwise fall through to the next column. -/
def pit_check (acc : Acc) (mx my : Nat) (yoffset : Nat) :
    Option (Option (Int × Int × Int)) :=
  (acc ((mx : Int) + 1) ((my + yoffset : Nat) : Int)).bind fun v1 =>
    if v1 = AIR then
      (acc 15 ((my + yoffset : Nat) : Int)).bind fun v2 =>
        if v2 = AIR then
          pyFirst (pit_far_check acc mx my yoffset)
            (prodList (fun _ => List.range (COLS - (my + yoffset))) (List.range ROWS))
        else some none
    else some none

/-- `get_pit_info`: scan columns `my, …, COLS - 1` for the first column
with air both one row beneath the anchor and on the bottom row (index
15); then scan the whole grid row-major from that column rightward for
the first cell with code in `[BLOCK, PIPE]`; returns
`(yoffset, mx - a, b - my)`, or the sentinel `(100, 100, 100)`. -/
def get_pit_info (acc : Acc) (mx my : Nat) : Option (Int × Int × Int) :=
  match pyFirst (pit_check acc mx my) (List.range (COLS - my)) with
  | none => none
  | some (some r) => some r
  | some none => some (100, 100, 100)

/-- Linear search for the least `m ≥ start` with `n ≤ m * m`, returning
the current candidate when the fuel runs out; with fuel `n` from start 0
the fuel never runs out first (`n ≤ n * n`). -/
def ceilSqrtFrom (n : Nat) : Nat → Nat → Nat
  | 0, m => m
  | fuel + 1, m => if n ≤ m * m then m else ceilSqrtFrom n fuel (m + 1)

/-- Ceiling of the real square root of a natural number: the least `m`
with `n ≤ m * m` (see `get_pythag_dist_least`). -/
def ceilSqrt (n : Nat) : Nat := ceilSqrtFrom n n 0

/-- `get_pythag_dist`: `math.ceil(math.sqrt(a ** 2 + b ** 2))`.  The
float computation is exact at the tile-offset magnitudes the game area
produces, so it is embedded as the exact ceiling square root of
`a * a + b * b`. -/
def get_pythag_dist (a b : Int) : Int := (ceilSqrt (a * a + b * b).toNat : Int)

/-- The rule cascade of `choose_action` after the boundary check (source
lines 225–264): obstacle hop, platform hop, ground threat, rule for
sprite code 19, pit jump, default `(RIGHT, 1)`. -/
def cascade (prev : Option Actions) (enemy_info pit_info : Int × Int × Int)
    (obstacle_info : Int × Int) (is_airborne : Bool) (platform : Int × Int) :
    Actions × Int :=
  if obstacle_info.1 < 3 ∧ is_airborne = false then
    (Actions.JUMP, obstacle_info.2 * 2)
  else if platform.2 < 6 ∧ platform.1 < 6 ∧ platform.1 ≠ obstacle_info.1 then
    (Actions.JUMP, platform.1 * 3 + if pit_info.1 < platform.2 then 10 else 0)
  else if enemy_info.2.2 < 18 ∧ enemy_info.2.1 < 2 then
    if prev = some Actions.JUMP then (Actions.LEFT, 1) else (Actions.JUMP, 1)
  else if enemy_info.2.2 = 19 ∧ enemy_info.2.1 < 4 then
    (Actions.JUMP, enemy_info.1 + 10)
  else if pit_info.1 < 2 ∧ is_airborne = false then
    (Actions.JUMP, get_pythag_dist (max 4 pit_info.2.1) pit_info.2.2)
  else (Actions.RIGHT, 1)

/-- The anti-oscillation guard (source lines 267–270): a selected JUMP
equal to the previous action is downgraded to `(RIGHT, 1)`. -/
def oscillation_guard (prev : Option Actions) (sel : Actions × Int) : Actions × Int :=
  if prev = some sel.1 ∧ sel.1 = Actions.JUMP then (Actions.RIGHT, 1) else sel

/-- `choose_action`: locate the anchor, take the boundary exit when its
row or column is ≥ 15 (leaving `prev_action` untouched), otherwise run
the five extractors (in source order; a raising extractor aborts the
call), the cascade, and the guard.  The result pairs the returned
`(action, duration)` with the value of `prev_action` after the call. -/
def choose_action (g : Grid) (prev : Option Actions) :
    Option ((Actions × Int) × Option Actions) :=
  let mario_pos := get_mario_pos g
  if 15 ≤ mario_pos.1 ∨ 15 ≤ mario_pos.2 then some ((Actions.RIGHT, 1), prev)
  else
    (get_enemy_info (npGet g) mario_pos.1 mario_pos.2).bind fun enemy_info =>
    (get_pit_info (npGet g) mario_pos.1 mario_pos.2).bind fun pit_info =>
    (get_obstacle_info (npGet g) mario_pos.1 mario_pos.2).bind fun obstacle_info =>
    (get_is_airborne (npGet g) mario_pos.1 mario_pos.2).bind fun is_airborne =>
    (get_platform_above (npGet g) mario_pos.1 mario_pos.2).bind fun platform =>
    some (oscillation_guard prev
        (cascade prev enemy_info pit_info obstacle_info is_airborne platform),
      some (oscillation_guard prev
        (cascade prev enemy_info pit_info obstacle_info is_airborne platform)).1)

/-- Rules 4–7 of the cascade (ground threat, code-19 rule, pit jump,
default), as a standalone function: the platform rule passes control to
these when its condition fails. -/
def cascade_tail (prev : Option Actions) (enemy_info pit_info : Int × Int × Int)
    (is_airborne : Bool) : Actions × Int :=
  if enemy_info.2.2 < 18 ∧ enemy_info.2.1 < 2 then
    if prev = some Actions.JUMP then (Actions.LEFT, 1) else (Actions.JUMP, 1)
  else if enemy_info.2.2 = 19 ∧ enemy_info.2.1 < 4 then
    (Actions.JUMP, enemy_info.1 + 10)
  else if pit_info.1 < 2 ∧ is_airborne = false then
    (Actions.JUMP, get_pythag_dist (max 4 pit_info.2.1) pit_info.2.2)
  else (Actions.RIGHT, 1)

/-- Pure (in-bounds) form of one enemy-scan step: the triple when the
cell at `(mx - xoffset, my + yoffset)` has code ≥ GOOMBA, else `none`. -/
def enemy_pure (g : Grid) (mx my : Nat) (c : Nat × Nat) :
    Option (Int × Int × Int) :=
  if GOOMBA ≤ g (mx - c.1) (my + c.2) then
    some ((c.1 : Int), (c.2 : Int), ((g (mx - c.1) (my + c.2) : Nat) : Int))
  else none

/-- Modelled from the spec: the enemy scan as the claim words it — the
anchor's own row first, then each row progressively above it *within
grid bounds*, i.e. row offsets `0, …, mx` (reaching the top row 0);
within each row, columns outward from the anchor's. -/
def enemy_scan_claimed (g : Grid) (mx my : Nat) : Int × Int × Int :=
  (firstSome (enemy_pure g mx my)
    (prodList (fun _ => List.range (COLS - my)) (List.range (mx + 1)))).getD (100, 100, 100)

/-- The enemy scan the code actually performs, stated in pure form: row
offsets `0, …, mx - 1` only — the top row (index 0) is never examined. -/
def enemy_scan_amended (g : Grid) (mx my : Nat) : Int × Int × Int :=
  (firstSome (enemy_pure g mx my)
    (prodList (fun _ => List.range (COLS - my)) (List.range mx))).getD (100, 100, 100)

/-- Grid with the player's 2 × 2 sprite at rows 14–15 (anchor row 15,
off the bottom edge): the boundary exit fires. -/
def G1 : Grid := fun i j =>
  if i = 14 ∧ j = 3 then MARIO else AIR

/-- Grid with a single player cell at (1, 13), anchor (2, 14), and
everything else air: the platform scan reaches column index 20. -/
def G2 : Grid := fun i j =>
  if i = 1 ∧ j = 13 then MARIO else AIR

/-- Grid with the player at anchor (13, 3), solid ground on rows 14–15,
and an obstacle exactly two solid cells tall (rows 12–13) at column 4 =
column offset 1 ahead of the anchor. -/
def G3 : Grid := fun i j =>
  if (i = 12 ∨ i = 13) ∧ (j = 2 ∨ j = 3) then MARIO
  else if (i = 12 ∨ i = 13) ∧ j = 4 then BRICK
  else if 14 ≤ i then BLOCK
  else AIR

/-- Grid with the player at anchor (13, 3), solid ground everywhere on
rows 14–15, and an enemy with the FLY sprite code (18) on the anchor's
row at column offset 2. -/
def G6 : Grid := fun i j =>
  if (i = 12 ∨ i = 13) ∧ (j = 2 ∨ j = 3) then MARIO
  else if i = 13 ∧ j = 5 then FLY
  else if 14 ≤ i then BLOCK
  else AIR

/-- Like `G6` but with sprite code 19 (BEE) instead of 18 (FLY). -/
def G6b : Grid := fun i j =>
  if (i = 12 ∨ i = 13) ∧ (j = 2 ∨ j = 3) then MARIO
  else if i = 13 ∧ j = 5 then BEE
  else if 14 ≤ i then BLOCK
  else AIR

/-- Grid with the player at anchor (13, 3), ground only under columns
0–3, a pit starting at column offset 1, and a far-edge block at (8, 7)
(vertical offset 5, span 4); the cell above the far edge is occupied so
the platform extractor does not fire on it. -/
def G7 : Grid := fun i j =>
  if (i = 12 ∨ i = 13) ∧ (j = 2 ∨ j = 3) then MARIO
  else if 14 ≤ i ∧ j ≤ 3 then BLOCK
  else if i = 8 ∧ j = 7 then BLOCK
  else if i = 7 ∧ j = 7 then SHELL
  else AIR

/-- Grid with the player at anchor (13, 3), solid ground on rows 14–15,
and a GOOMBA on the top row (row 0) at column 5 — inside the grid and
ahead of the anchor, but on the one row the enemy scan never visits. -/
def G9 : Grid := fun i j =>
  if (i = 12 ∨ i = 13) ∧ (j = 2 ∨ j = 3) then MARIO
  else if i = 0 ∧ j = 5 then GOOMBA
  else if 14 ≤ i then BLOCK
  else AIR

theorem npGet_nat (g : Grid) (i j : Nat) (hi : i < ROWS) (hj : j < COLS) :
    npGet g (i : Int) (j : Int) = some (g i j) := by
  unfold npGet npIdx
  rw [if_pos ⟨Int.natCast_nonneg i, by exact_mod_cast hi⟩,
    if_pos ⟨Int.natCast_nonneg j, by exact_mod_cast hj⟩]
  simp

theorem pyFirst_cons_continue {α β : Type} (f : α → Option (Option β)) (a : α)
    (l : List α) (h : f a = some none) : pyFirst f (a :: l) = pyFirst f l := by
  simp [pyFirst, h]

theorem pyFirst_cons_return {α β : Type} (f : α → Option (Option β)) (a : α)
    (l : List α) (b : β) (h : f a = some (some b)) :
    pyFirst f (a :: l) = some (some b) := by
  simp [pyFirst, h]

theorem pyFirst_eq_firstSome {α β : Type} (f : α → Option (Option β))
    (h : α → Option β) : ∀ l : List α, (∀ a ∈ l, f a = some (h a)) →
    pyFirst f l = some (firstSome h l)
  | [], _ => rfl
  | a :: l, hl => by
    have ha : f a = some (h a) := hl a (List.mem_cons_self a l)
    cases hh : h a with
    | none =>
      rw [pyFirst_cons_continue f a l (by rw [ha, hh]),
        pyFirst_eq_firstSome f h l (fun x hx => hl x (List.mem_cons_of_mem a hx))]
      simp [firstSome, hh]
    | some b =>
      rw [pyFirst_cons_return f a l b (by rw [ha, hh])]
      simp [firstSome, hh]

theorem mem_prodList {α β : Type} (f : α → List β) {c : α × β} :
    ∀ {l : List α}, c ∈ prodList f l → c.1 ∈ l ∧ c.2 ∈ f c.1
  | [], hc => by simp [prodList] at hc
  | a :: l, hc => by
    rw [prodList] at hc
    rcases List.mem_append.mp hc with hc | hc
    · rcases List.mem_map.mp hc with ⟨b, hb, hcb⟩
      rw [← hcb]
      exact ⟨List.mem_cons_self a l, hb⟩
    · rcases mem_prodList f hc with ⟨h1, h2⟩
      exact ⟨List.mem_cons_of_mem a h1, h2⟩

theorem obstacleWalk_step (acc : Acc) (col : Int) (fuel : Nat) (x : Int) (v : Nat)
    (hv : acc x col = some v) (hne : v ≠ AIR) :
    obstacleWalk acc col (fuel + 1) x = obstacleWalk acc col fuel (x - 1) := by
  simp [obstacleWalk, hv, hne]

theorem obstacleWalk_stop (acc : Acc) (col : Int) (fuel : Nat) (x : Int)
    (hv : acc x col = some AIR) :
    obstacleWalk acc col (fuel + 1) x = some x := by
  simp [obstacleWalk, hv]

theorem choose_action_eq (g : Grid) (prev : Option Actions) (mx my : Nat)
    (hm : get_mario_pos g = (mx, my)) (h1 : mx < 15) (h2 : my < 15)
    (e : Int × Int × Int) (he : get_enemy_info (npGet g) mx my = some e)
    (p : Int × Int × Int) (hp : get_pit_info (npGet g) mx my = some p)
    (o : Int × Int) (ho : get_obstacle_info (npGet g) mx my = some o)
    (b : Bool) (hb : get_is_airborne (npGet g) mx my = some b)
    (pl : Int × Int) (hpl : get_platform_above (npGet g) mx my = some pl) :
    choose_action g prev =
      some (oscillation_guard prev (cascade prev e p o b pl),
        some (oscillation_guard prev (cascade prev e p o b pl)).1) := by
  simp only [choose_action, hm]
  rw [if_neg (by omega : ¬(15 ≤ mx ∨ 15 ≤ my))]
  rw [he, Option.some_bind, hp, Option.some_bind, ho, Option.some_bind,
    hb, Option.some_bind, hpl, Option.some_bind]

theorem choose_action_cases (g : Grid) (prev : Option Actions)
    (r : (Actions × Int) × Option Actions) (h : choose_action g prev = some r) :
    ((15 ≤ (get_mario_pos g).1 ∨ 15 ≤ (get_mario_pos g).2) ∧
      r = ((Actions.RIGHT, 1), prev)) ∨
    (¬(15 ≤ (get_mario_pos g).1 ∨ 15 ≤ (get_mario_pos g).2) ∧
      ∃ sel : Actions × Int,
        r = (oscillation_guard prev sel, some (oscillation_guard prev sel).1)) := by
  simp only [choose_action] at h
  by_cases hbd : 15 ≤ (get_mario_pos g).1 ∨ 15 ≤ (get_mario_pos g).2
  · rw [if_pos hbd] at h
    exact Or.inl ⟨hbd, (Option.some.inj h).symm⟩
  · rw [if_neg hbd] at h
    refine Or.inr ⟨hbd, ?_⟩
    rcases Option.bind_eq_some.mp h with ⟨e, -, h⟩
    rcases Option.bind_eq_some.mp h with ⟨p, -, h⟩
    rcases Option.bind_eq_some.mp h with ⟨o, -, h⟩
    rcases Option.bind_eq_some.mp h with ⟨b, -, h⟩
    rcases Option.bind_eq_some.mp h with ⟨pl, -, h⟩
    exact ⟨cascade prev e p o b pl, (Option.some.inj h).symm⟩

theorem ceilSqrtFrom_ge (n : Nat) : ∀ (fuel m : Nat),
    n ≤ (m + fuel) * (m + fuel) →
    n ≤ ceilSqrtFrom n fuel m * ceilSqrtFrom n fuel m
  | 0, m, h => by rw [ceilSqrtFrom]; simpa using h
  | fuel + 1, m, h => by
    rw [ceilSqrtFrom]
    by_cases hm : n ≤ m * m
    · rw [if_pos hm]; exact hm
    · rw [if_neg hm]
      have heq : m + 1 + fuel = m + (fuel + 1) := by omega
      exact ceilSqrtFrom_ge n fuel (m + 1) (by rw [heq]; exact h)

theorem ceilSqrtFrom_le (n : Nat) : ∀ (fuel m j : Nat), m ≤ j → j ≤ m + fuel →
    n ≤ j * j → ceilSqrtFrom n fuel m ≤ j
  | 0, m, j, h1, h2, _ => by rw [ceilSqrtFrom]; omega
  | fuel + 1, m, j, h1, h2, hj => by
    rw [ceilSqrtFrom]
    by_cases hm : n ≤ m * m
    · rw [if_pos hm]; exact h1
    · rw [if_neg hm]
      have hmj : m + 1 ≤ j := by
        rcases Nat.eq_or_lt_of_le h1 with heq | h
        · subst heq; exact absurd hj hm
        · omega
      exact ceilSqrtFrom_le n fuel (m + 1) j hmj (by omega) hj

theorem get_pythag_dist_least (a b : Int) :
    a * a + b * b ≤ get_pythag_dist a b * get_pythag_dist a b ∧
    ∀ d : Int, 0 ≤ d → a * a + b * b ≤ d * d → get_pythag_dist a b ≤ d := by
  have hnn : (0 : Int) ≤ a * a + b * b :=
    add_nonneg (mul_self_nonneg a) (mul_self_nonneg b)
  have hcast : (((a * a + b * b).toNat : Nat) : Int) = a * a + b * b :=
    Int.toNat_of_nonneg hnn
  have hself : (a * a + b * b).toNat ≤ (a * a + b * b).toNat * (a * a + b * b).toNat := by
    nlinarith [Nat.zero_le ((a * a + b * b).toNat)]
  constructor
  · have h1 : (a * a + b * b).toNat ≤
        ceilSqrt (a * a + b * b).toNat * ceilSqrt (a * a + b * b).toNat :=
      ceilSqrtFrom_ge (a * a + b * b).toNat (a * a + b * b).toNat 0 (by simpa using hself)
    unfold get_pythag_dist
    rw [← hcast]
    exact_mod_cast h1
  · intro d hd hdd
    have hdd' : (a * a + b * b).toNat ≤ d.toNat * d.toNat := by
      have hc2 : ((d.toNat * d.toNat : Nat) : Int) = d * d := by
        push_cast [Int.toNat_of_nonneg hd]
        ring
      have h' : (((a * a + b * b).toNat : Nat) : Int) ≤ ((d.toNat * d.toNat : Nat) : Int) := by
        rw [hcast, hc2]; exact hdd
      exact_mod_cast h'
    have h2 : ceilSqrt (a * a + b * b).toNat ≤ d.toNat := by
      by_cases hjn : d.toNat ≤ (a * a + b * b).toNat
      · exact ceilSqrtFrom_le (a * a + b * b).toNat (a * a + b * b).toNat 0 d.toNat
          (by omega) (by omega) hdd'
      · have h3 : ceilSqrtFrom (a * a + b * b).toNat (a * a + b * b).toNat 0 ≤
            (a * a + b * b).toNat :=
          ceilSqrtFrom_le (a * a + b * b).toNat (a * a + b * b).toNat 0
            (a * a + b * b).toNat (by omega) (by omega) hself
        unfold ceilSqrt
        omega
    unfold get_pythag_dist
    calc ((ceilSqrt (a * a + b * b).toNat : Nat) : Int) ≤ ((d.toNat : Nat) : Int) := by
          exact_mod_cast h2
      _ = d := Int.toNat_of_nonneg hd

theorem oscillation_guard_fst_ne (sel : Actions × Int) :
    (oscillation_guard (some Actions.JUMP) sel).1 ≠ Actions.JUMP := by
  unfold oscillation_guard
  by_cases hs : sel.1 = Actions.JUMP
  · rw [if_pos ⟨by rw [hs], hs⟩]; decide
  · rw [if_neg (fun hh => hs hh.2)]; exact hs

/-- C1: for every grid and previous action, when the anchor's row or
column has reached or exceeded the grid's far edge (row index
`ROWS - 1 = 15`, column index `COLS - 1 = 19`), `choose_action` returns
exactly (RIGHT, 1), regardless of every other observation. -/
theorem boundary_yields_right (g : Grid) (prev : Option Actions)
    (h : ROWS - 1 ≤ (get_mario_pos g).1 ∨ COLS - 1 ≤ (get_mario_pos g).2) :
    choose_action g prev = some ((Actions.RIGHT, 1), prev) := by
  have h15 : 15 ≤ (get_mario_pos g).1 ∨ 15 ≤ (get_mario_pos g).2 := by
    unfold ROWS COLS at h; omega
  simp only [choose_action]
  rw [if_pos h15]

theorem boundary_yields_right_witness :
    (ROWS - 1 ≤ (get_mario_pos G1).1 ∨ COLS - 1 ≤ (get_mario_pos G1).2) ∧
    choose_action G1 none = some ((Actions.RIGHT, 1), none) :=
  ⟨by decide, boundary_yields_right G1 none (by decide)⟩

/-- C2: the bounds-safety claim fails on the code.  On grid `G2` the
anchor is (2, 14), which passes the boundary check, yet the platform
scan's column index reaches `my + 6 = 20`, one past the right edge of
the 20-column grid, so `get_platform_above` raises `IndexError` (modelled
`none`) and the whole `choose_action` call aborts instead of the scan
degrading to its sentinel. -/
theorem platform_scan_out_of_bounds :
    get_mario_pos G2 = (2, 14) ∧
    ¬(15 ≤ (get_mario_pos G2).1 ∨ 15 ≤ (get_mario_pos G2).2) ∧
    get_platform_above (npGet G2) 2 14 = none ∧
    choose_action G2 none = none := by decide

/-- C4 counterexample: on the boundary path the stored previous action is
not updated — with previous action JUMP and the anchor off the bottom
edge, the call returns (RIGHT, 1) while the stored previous action stays
JUMP. -/
theorem prev_update_counterexample :
    choose_action G1 (some Actions.JUMP) =
      some ((Actions.RIGHT, 1), some Actions.JUMP) ∧
    some Actions.JUMP ≠ some Actions.RIGHT := by decide

/-- C4 amended: after every successful call the stored previous action
equals the returned action on every non-boundary path; the boundary path
instead returns (RIGHT, 1) leaving the stored previous action unchanged
(the early return skips the update). -/
theorem prev_update_amended (g : Grid) (prev : Option Actions)
    (r : (Actions × Int) × Option Actions) (h : choose_action g prev = some r) :
    r.2 = if 15 ≤ (get_mario_pos g).1 ∨ 15 ≤ (get_mario_pos g).2 then prev
      else some r.1.1 := by
  rcases choose_action_cases g prev r h with ⟨hb, hr⟩ | ⟨hb, sel, hr⟩
  · rw [if_pos hb, hr]
  · rw [if_neg hb, hr]

theorem prev_update_amended_witness :
    choose_action G3 none = some ((Actions.JUMP, 6), some Actions.JUMP) ∧
    some Actions.JUMP =
      (if 15 ≤ (get_mario_pos G3).1 ∨ 15 ≤ (get_mario_pos G3).2
        then (none : Option Actions) else some Actions.JUMP) :=
  ⟨by decide,
    prev_update_amended G3 none ((Actions.JUMP, 6), some Actions.JUMP) (by decide)⟩

/-- C5: for every observation bundle and previous action, if the
cascade-selected action equals the previous action and that action is
JUMP, the guard overrides the emission to exactly (RIGHT, 1); for any
other combination the cascade's selection is emitted unchanged. -/
theorem oscillation_guard_law (prev : Option Actions) (e p : Int × Int × Int)
    (o : Int × Int) (b : Bool) (pl : Int × Int) :
    ((cascade prev e p o b pl).1 = Actions.JUMP → prev = some Actions.JUMP →
      oscillation_guard prev (cascade prev e p o b pl) = (Actions.RIGHT, 1)) ∧
    (¬(prev = some (cascade prev e p o b pl).1 ∧
        (cascade prev e p o b pl).1 = Actions.JUMP) →
      oscillation_guard prev (cascade prev e p o b pl) =
        cascade prev e p o b pl) := by
  constructor
  · intro hj hp
    unfold oscillation_guard
    rw [if_pos ⟨by rw [hj]; exact hp, hj⟩]
  · intro h
    unfold oscillation_guard
    rw [if_neg h]

theorem oscillation_guard_law_witness :
    oscillation_guard (some Actions.JUMP)
      (cascade (some Actions.JUMP) (100, 100, 100) (100, 100, 100) (0, 2)
        false (100, 100)) = (Actions.RIGHT, 1) ∧
    oscillation_guard none
      (cascade none (100, 100, 100) (100, 100, 100) (0, 2) false (100, 100)) =
      cascade none (100, 100, 100) (100, 100, 100) (0, 2) false (100, 100) :=
  ⟨(oscillation_guard_law (some Actions.JUMP) (100, 100, 100) (100, 100, 100)
      (0, 2) false (100, 100)).1 (by decide) rfl,
   (oscillation_guard_law none (100, 100, 100) (100, 100, 100)
      (0, 2) false (100, 100)).2 (by decide)⟩

/-- C8: whenever the obstacle rule does not fire, the platform rule fires
iff the platform edge is within 6 rows and 6 columns and its vertical
distance differs from the obstacle observation's first component,
emitting (JUMP, verticalDistance × 3) with 10 added to the duration
exactly when the pit's start column offset is strictly smaller than the
platform's column offset; when its condition fails, control passes
unchanged to the remaining rules. -/
theorem platform_rule (prev : Option Actions) (e p : Int × Int × Int)
    (o : Int × Int) (b : Bool) (pl : Int × Int)
    (h2 : ¬(o.1 < 3 ∧ b = false)) :
    ((pl.2 < 6 ∧ pl.1 < 6 ∧ pl.1 ≠ o.1) →
      cascade prev e p o b pl =
        (Actions.JUMP, pl.1 * 3 + if p.1 < pl.2 then 10 else 0)) ∧
    (¬(pl.2 < 6 ∧ pl.1 < 6 ∧ pl.1 ≠ o.1) →
      cascade prev e p o b pl = cascade_tail prev e p b) := by
  constructor
  · intro h3
    unfold cascade
    rw [if_neg h2, if_pos h3]
  · intro h3
    unfold cascade cascade_tail
    rw [if_neg h2, if_neg h3]

theorem platform_rule_witness :
    cascade none (100, 100, 100) (1, 100, 100) (100, 100) false (2, 3) =
      (Actions.JUMP, 16) ∧
    cascade none (100, 100, 100) (1, 100, 100) (100, 100) false (100, 100) =
      cascade_tail none (100, 100, 100) (1, 100, 100) false := by
  constructor
  · rw [(platform_rule none (100, 100, 100) (1, 100, 100) (100, 100) false
      (2, 3) (by decide)).1 (by decide)]
    decide
  · exact (platform_rule none (100, 100, 100) (1, 100, 100) (100, 100) false
      (100, 100) (by decide)).2 (by decide)

/-- C10: the emitted action stream never contains JUMP in two consecutive
cycles — if a call returns JUMP, the next call, fed the stored previous
action, returns a different action (the guard downgrades a re-selected
JUMP and the boundary path returns RIGHT). -/
theorem no_consecutive_jumps (g1 g2 : Grid) (prev : Option Actions)
    (r1 r2 : (Actions × Int) × Option Actions)
    (h1 : choose_action g1 prev = some r1)
    (h2 : choose_action g2 r1.2 = some r2)
    (hj : r1.1.1 = Actions.JUMP) : r2.1.1 ≠ Actions.JUMP := by
  have hr1 : r1.2 = some Actions.JUMP := by
    rcases choose_action_cases g1 prev r1 h1 with ⟨-, hr⟩ | ⟨-, sel, hr⟩
    · rw [hr] at hj
      exact absurd hj (by simp)
    · rw [hr] at hj
      rw [hr]
      exact congrArg some hj
  rw [hr1] at h2
  rcases choose_action_cases g2 (some Actions.JUMP) r2 h2 with ⟨-, hr⟩ | ⟨-, sel, hr⟩
  · rw [hr]; decide
  · rw [hr]; exact oscillation_guard_fst_ne sel

theorem no_consecutive_jumps_witness :
    choose_action G3 none = some ((Actions.JUMP, 6), some Actions.JUMP) ∧
    choose_action G3 (some Actions.JUMP) =
      some ((Actions.RIGHT, 1), some Actions.RIGHT) ∧
    Actions.RIGHT ≠ Actions.JUMP :=
  ⟨by decide, by decide,
    no_consecutive_jumps G3 G3 none ((Actions.JUMP, 6), some Actions.JUMP)
      ((Actions.RIGHT, 1), some Actions.RIGHT) (by decide) (by decide) rfl⟩

/-- C3 counterexample: `G3` holds a solid obstacle exactly two cells tall
(rows 12–13 of column 4) at column offset 1 ahead of the grounded
player, yet `choose_action` returns (JUMP, 6), not (JUMP, 4): the walk
reports height 3 = run length + 1 and the duration is height × 2. -/
theorem obstacle_height_counterexample :
    get_obstacle_info (npGet G3) 13 3 = some (1, 3) ∧
    choose_action G3 none = some ((Actions.JUMP, 6), some Actions.JUMP) ∧
    choose_action G3 none ≠ some ((Actions.JUMP, 4), some Actions.JUMP) := by
  decide

/-- C6 counterexample: the nearest enemy on `G6` carries the FLY sprite
code 18 at column offset 2 < 4 and no earlier rule matches, yet
`choose_action` falls through to the default (RIGHT, 1) instead of
emitting (JUMP, rowOffset + 10): the rule tests sprite code 19 (BEE),
not the FLY code. -/
theorem fly_rule_counterexample :
    (FLY : Nat) = 18 ∧
    get_enemy_info (npGet G6) 13 3 = some (0, 2, 18) ∧
    choose_action G6 none = some ((Actions.RIGHT, 1), some Actions.RIGHT) ∧
    choose_action G6 none ≠ some ((Actions.JUMP, 0 + 10), some Actions.JUMP) := by
  decide

/-- C9 counterexample: on `G9` a GOOMBA sits on the top row (row 0),
inside the grid and ahead of the anchor; the scan described by the claim
(rows up to the far edge of the grid) finds it, but `get_enemy_info`
returns the sentinel — the code's scan stops one row short of the top. -/
theorem enemy_scan_counterexample :
    enemy_scan_claimed G9 13 3 = (13, 2, 15) ∧
    get_enemy_info (npGet G9) 13 3 = some (100, 100, 100) ∧
    get_enemy_info (npGet G9) 13 3 ≠ some (enemy_scan_claimed G9 13 3) := by
  decide

/-- C3 amended: the obstacle walk overshoots the solid run by one — for
every grid whose extraction succeeds, with the anchor in bounds, no
obstacle-class cell on the anchor's own column, a solid obstacle exactly
two cells tall at column offset 1 (solid at rows `mx` and `mx - 1`, air
at `mx - 2`), the player grounded and the previous action not JUMP, the
obstacle extractor reports height 3 (= run length + 1) and
`choose_action` returns (JUMP, 6) = (JUMP, reported height × 2), not
(JUMP, 4). -/
theorem obstacle_rule_amended (g : Grid) (prev : Option Actions) (mx my : Nat)
    (hm : get_mario_pos g = (mx, my)) (hx : mx < 15) (hy : my < 15) (hx2 : 2 ≤ mx)
    (h0 : ¬(g mx my = BRICK ∨ g mx my = PIPE ∨ g mx my = BLOCK))
    (h1 : g mx (my + 1) = BRICK ∨ g mx (my + 1) = PIPE ∨ g mx (my + 1) = BLOCK)
    (h2 : g (mx - 1) (my + 1) ≠ AIR)
    (h3 : g (mx - 2) (my + 1) = AIR)
    (hg : g (mx + 1) my ≠ AIR)
    (hprev : prev ≠ some Actions.JUMP)
    (e : Int × Int × Int) (he : get_enemy_info (npGet g) mx my = some e)
    (p : Int × Int × Int) (hp : get_pit_info (npGet g) mx my = some p)
    (pl : Int × Int) (hpl : get_platform_above (npGet g) mx my = some pl) :
    get_obstacle_info (npGet g) mx my = some (1, 3) ∧
    choose_action g prev = some ((Actions.JUMP, 6), some Actions.JUMP) := by
  have c0 : obstacle_check (npGet g) mx my 0 = some none := by
    unfold obstacle_check
    rw [Nat.add_zero, npGet_nat g mx my (by unfold ROWS; omega) (by unfold COLS; omega)]
    simp only [Option.some_bind]
    exact if_neg h0
  have w : obstacleWalk (npGet g) ((my + 1 : Nat) : Int) 40 (mx : Int) =
      some ((mx : Int) - 2) := by
    have a1 : npGet g (mx : Int) ((my + 1 : Nat) : Int) = some (g mx (my + 1)) :=
      npGet_nat g mx (my + 1) (by unfold ROWS; omega) (by unfold COLS; omega)
    have hv1 : g mx (my + 1) ≠ AIR := by
      rcases h1 with h | h | h <;> rw [h] <;> decide
    rw [show (40 : Nat) = 39 + 1 from rfl, obstacleWalk_step (npGet g) _ 39 _ _ a1 hv1]
    rw [show (mx : Int) - 1 = ((mx - 1 : Nat) : Int) by omega]
    have a2 : npGet g ((mx - 1 : Nat) : Int) ((my + 1 : Nat) : Int) =
        some (g (mx - 1) (my + 1)) :=
      npGet_nat g (mx - 1) (my + 1) (by unfold ROWS; omega) (by unfold COLS; omega)
    rw [show (39 : Nat) = 38 + 1 from rfl, obstacleWalk_step (npGet g) _ 38 _ _ a2 h2]
    rw [show ((mx - 1 : Nat) : Int) - 1 = ((mx - 2 : Nat) : Int) by omega]
    have a3 : npGet g ((mx - 2 : Nat) : Int) ((my + 1 : Nat) : Int) =
        some (g (mx - 2) (my + 1)) :=
      npGet_nat g (mx - 2) (my + 1) (by unfold ROWS; omega) (by unfold COLS; omega)
    rw [show (38 : Nat) = 37 + 1 from rfl,
      obstacleWalk_stop (npGet g) _ 37 _ (by rw [a3, h3])]
    rw [show ((mx - 2 : Nat) : Int) = (mx : Int) - 2 by omega]
  have c1 : obstacle_check (npGet g) mx my 1 = some (some (1, 3)) := by
    unfold obstacle_check
    rw [npGet_nat g mx (my + 1) (by unfold ROWS; omega) (by unfold COLS; omega)]
    simp only [Option.some_bind]
    rw [if_pos h1, w]
    simp only [Option.map_some']
    rw [show (mx : Int) - ((mx : Int) - 2) + 1 = 3 by ring]
    norm_num
  have hob : get_obstacle_info (npGet g) mx my = some (1, 3) := by
    unfold get_obstacle_info
    rw [show List.range 6 = [0, 1, 2, 3, 4, 5] from rfl]
    rw [pyFirst_cons_continue _ _ _ c0, pyFirst_cons_return _ _ _ _ c1]
  have hair : get_is_airborne (npGet g) mx my = some false := by
    unfold get_is_airborne
    rw [show (mx : Int) + 1 = ((mx + 1 : Nat) : Int) by omega]
    rw [npGet_nat g (mx + 1) my (by unfold ROWS; omega) (by unfold COLS; omega)]
    simp only [Option.map_some']
    rw [beq_eq_false_iff_ne.mpr hg]
  refine ⟨hob, ?_⟩
  rw [choose_action_eq g prev mx my hm hx hy e he p hp (1, 3) hob false hair pl hpl]
  have hsel : cascade prev e p (1, 3) false pl = (Actions.JUMP, 6) := by
    unfold cascade
    rw [if_pos ⟨by norm_num, rfl⟩]
    norm_num
  rw [hsel]
  unfold oscillation_guard
  rw [if_neg (fun hh => hprev hh.1)]

theorem obstacle_rule_amended_witness :
    get_obstacle_info (npGet G3) 13 3 = some (1, 3) ∧
    choose_action G3 none = some ((Actions.JUMP, 6), some Actions.JUMP) :=
  obstacle_rule_amended G3 none 13 3 (by decide) (by decide) (by decide)
    (by decide) (by decide) (by decide) (by decide) (by decide) (by decide)
    (by decide) (100, 100, 100) (by decide) (100, 100, 100) (by decide)
    (100, 100) (by decide)

/-- C6 amended: the aerial-threat rule matches sprite code 19 (the BEE
code of the enumeration), not the FLY code 18 — for every grid whose
extraction succeeds, with the anchor in bounds, rules 1–3 not firing, the
nearest enemy carrying sprite code 19 at column offset < 4 (rule 4
cannot fire on code 19), and the previous action not JUMP,
`choose_action` emits (JUMP, rowOffset + 10). -/
theorem bee_rule_amended (g : Grid) (prev : Option Actions) (mx my : Nat)
    (hm : get_mario_pos g = (mx, my)) (hx : mx < 15) (hy : my < 15)
    (r c : Int) (he : get_enemy_info (npGet g) mx my = some (r, c, 19))
    (p : Int × Int × Int) (hp : get_pit_info (npGet g) mx my = some p)
    (o : Int × Int) (ho : get_obstacle_info (npGet g) mx my = some o)
    (b : Bool) (hb : get_is_airborne (npGet g) mx my = some b)
    (pl : Int × Int) (hpl : get_platform_above (npGet g) mx my = some pl)
    (hr2 : ¬(o.1 < 3 ∧ b = false))
    (hr3 : ¬(pl.2 < 6 ∧ pl.1 < 6 ∧ pl.1 ≠ o.1))
    (hc : c < 4) (hprev : prev ≠ some Actions.JUMP) :
    choose_action g prev = some ((Actions.JUMP, r + 10), some Actions.JUMP) := by
  rw [choose_action_eq g prev mx my hm hx hy (r, c, 19) he p hp o ho b hb pl hpl]
  have hsel : cascade prev (r, c, 19) p o b pl = (Actions.JUMP, r + 10) := by
    unfold cascade
    rw [if_neg hr2, if_neg hr3,
      if_neg (fun hh => absurd hh.1 (by norm_num : ¬((19 : Int) < 18))),
      if_pos ⟨rfl, hc⟩]
  rw [hsel]
  unfold oscillation_guard
  rw [if_neg (fun hh => hprev hh.1)]

theorem bee_rule_amended_witness :
    choose_action G6b none = some ((Actions.JUMP, 10), some Actions.JUMP) := by
  have h := bee_rule_amended G6b none 13 3 (by decide) (by decide) (by decide)
    0 2 (by decide) (100, 100, 100) (by decide) (100, 100) (by decide)
    false (by decide) (100, 100) (by decide) (by decide) (by decide)
    (by decide) (by decide)
  simpa using h

/-- C7: for every grid whose extraction succeeds, with the anchor in
bounds, rules 1–5 not firing, a pit starting within 2 columns and the
player grounded, `choose_action` returns
(JUMP, pythagoreanDistance(max(4, farEdgeVerticalOffset), farEdgeSpan)),
where `get_pythag_dist a b` is exactly the ceiling of the real square
root of a² + b² (the least nonnegative `d` with `a² + b² ≤ d²`); on the
claim's scenario (pit at offset 1, far edge at vertical offset 5, span 4)
the duration is ceil(sqrt(41)) = 7 (see the witness). -/
theorem pit_rule (g : Grid) (prev : Option Actions) (mx my : Nat)
    (hm : get_mario_pos g = (mx, my)) (hx : mx < 15) (hy : my < 15)
    (e : Int × Int × Int) (he : get_enemy_info (npGet g) mx my = some e)
    (ps v s : Int) (hp : get_pit_info (npGet g) mx my = some (ps, v, s))
    (o : Int × Int) (ho : get_obstacle_info (npGet g) mx my = some o)
    (hb : get_is_airborne (npGet g) mx my = some false)
    (pl : Int × Int) (hpl : get_platform_above (npGet g) mx my = some pl)
    (hr2 : ¬(o.1 < 3))
    (hr3 : ¬(pl.2 < 6 ∧ pl.1 < 6 ∧ pl.1 ≠ o.1))
    (hr4 : ¬(e.2.2 < 18 ∧ e.2.1 < 2))
    (hr5 : ¬(e.2.2 = 19 ∧ e.2.1 < 4))
    (hps : ps < 2) (hprev : prev ≠ some Actions.JUMP) :
    choose_action g prev =
      some ((Actions.JUMP, get_pythag_dist (max 4 v) s), some Actions.JUMP) ∧
    (∀ a b : Int, a * a + b * b ≤ get_pythag_dist a b * get_pythag_dist a b ∧
      ∀ d : Int, 0 ≤ d → a * a + b * b ≤ d * d → get_pythag_dist a b ≤ d) := by
  refine ⟨?_, fun a b => get_pythag_dist_least a b⟩
  rw [choose_action_eq g prev mx my hm hx hy e he (ps, v, s) hp o ho false hb pl hpl]
  have hsel : cascade prev e (ps, v, s) o false pl =
      (Actions.JUMP, get_pythag_dist (max 4 v) s) := by
    unfold cascade
    rw [if_neg (fun hh => hr2 hh.1), if_neg hr3, if_neg hr4, if_neg hr5,
      if_pos ⟨hps, rfl⟩]
  rw [hsel]
  unfold oscillation_guard
  rw [if_neg (fun hh => hprev hh.1)]

theorem pit_rule_witness :
    get_pit_info (npGet G7) 13 3 = some (1, 5, 4) ∧
    choose_action G7 none = some ((Actions.JUMP, 7), some Actions.JUMP) := by
  refine ⟨by decide, ?_⟩
  have h := pit_rule G7 none 13 3 (by decide) (by decide) (by decide)
    (6, 4, 25) (by decide) 1 5 4 (by decide) (100, 100) (by decide)
    (by decide) (100, 100) (by decide) (by decide) (by decide) (by decide)
    (by decide) (by decide) (by decide)
  rw [h.1]
  decide

/-- C9 amended: for every grid and in-bounds anchor, `get_enemy_info`
returns exactly the first enemy-or-shell-class cell (code ≥ GOOMBA) of
the scan that visits the anchor's own row first and then each row
progressively above it down to row 1 — the top row (index 0) is never
examined — and within each row the columns outward from the anchor's
toward the far edge; the sentinel (100, 100, 100) when that scan finds
nothing. -/
theorem enemy_scan_refines (g : Grid) (mx my : Nat) (hmx : mx ≤ 15) :
    get_enemy_info (npGet g) mx my = some (enemy_scan_amended g mx my) := by
  unfold get_enemy_info enemy_scan_amended
  rw [pyFirst_eq_firstSome (enemy_check (npGet g) mx my) (enemy_pure g mx my) _ ?_]
  · cases firstSome (enemy_pure g mx my)
      (prodList (fun _ => List.range (COLS - my)) (List.range mx)) with
    | none => rfl
    | some r => rfl
  · intro c hc
    rcases mem_prodList (fun _ => List.range (COLS - my)) hc with ⟨hc1, hc2⟩
    have hcx : c.1 < mx := List.mem_range.mp hc1
    have hcy : c.2 < COLS - my := List.mem_range.mp hc2
    unfold enemy_check enemy_pure
    rw [show (mx : Int) - (c.1 : Int) = ((mx - c.1 : Nat) : Int) by omega,
      show (my : Int) + (c.2 : Int) = ((my + c.2 : Nat) : Int) by omega,
      npGet_nat g (mx - c.1) (my + c.2) (by unfold ROWS; omega)
        (by unfold COLS at hcy ⊢; omega)]
    rw [Option.map_some']

theorem enemy_scan_refines_witness :
    enemy_scan_amended G9 13 3 = (100, 100, 100) ∧
    get_enemy_info (npGet G9) 13 3 = some (enemy_scan_amended G9 13 3) :=
  ⟨by decide, enemy_scan_refines G9 13 3 (by decide)⟩

end MarioExpert
